import Mathlib

/-!
Shallow embedding of the `hug-chakra` layout component.

Source files embedded:
- `media-query.utils.ts` (vendored from chakra-ui): `getClosestValue`.
- the Hug component: `Hug` orchestration and the `useHugGrid` hook.

Modelling conventions:
- A JS `Record<string, T>` is an association list `List (String × T)`
  with distinct keys; `Object.keys(values).indexOf(breakpoint) !== -1`
  is membership, i.e. `(values.lookup breakpoint).isSome`, and
  `values[key]` is `values.lookup key` (`undefined` is `none`).
- JS truthiness is type-dependent, so `getClosestValue` takes an explicit
  `truthy : T → Bool` parameter: for numbers `0` is falsy, for strings
  `""` is falsy, and an array value is always truthy.
- `T | undefined` results are `Option T`; the optional `defaultValue`
  parameter is an `Option T` argument.
- A thrown `Error` is an `Except` error value carrying the data that the
  thrown message interpolates.
-/

namespace Hug

/-- JS truthiness for an optional value: `undefined` is falsy, a present
value is as truthy as its type says. -/
def jsTruthyOpt {T : Type} (truthy : T → Bool) : Option T → Bool
  | some v => truthy v
  | none => false

/-- JS truthiness of a number (restricted to `Nat`): `0` is falsy. -/
def natTruthy (n : Nat) : Bool := n != 0

/-- JS truthiness of a string: `""` is falsy. -/
def strTruthy (s : String) : Bool := s != ""

/-- JS truthiness of an array value: arrays are always truthy. -/
def arrTruthy (_ : List String) : Bool := true

/-- JS `Array.prototype.findIndex`, with `-1` rendered as `none`. -/
def findIndex {α : Type} (p : α → Bool) : List α → Option Nat
  | [] => none
  | a :: l => if p a then some 0 else (findIndex p l).map (· + 1)

/-- The entry of `values` at the breakpoint sitting at position `i` of
`breakpoints`: models `values[breakpoints[i]]`. -/
def entryAt {T : Type} (values : List (String × T)) (breakpoints : List String)
    (i : Nat) : Option T :=
  (breakpoints[i]?).bind (fun key => values.lookup key)

/-- Whether `values[breakpoints[i]]` is truthy: the `while` loop's test
`if (values[key])` at position `i`. -/
def isTruthyAt {T : Type} (truthy : T → Bool) (values : List (String × T))
    (breakpoints : List String) (i : Nat) : Bool :=
  jsTruthyOpt truthy (entryAt values breakpoints i)

/-- The `while (stopIndex >= 0)` loop of `getClosestValue`, scanning from
position `stopIndex` down to `0` and returning `values[breakpoints[index]]`
for the first position whose entry is truthy (the loop records `index` and
breaks; the value returned afterwards is that entry). -/
def scanFrom {T : Type} (truthy : T → Bool) (values : List (String × T))
    (breakpoints : List String) : Nat → Option T
  | 0 =>
    if isTruthyAt truthy values breakpoints 0 then entryAt values breakpoints 0
    else none
  | i + 1 =>
    if isTruthyAt truthy values breakpoints (i + 1) then
      entryAt values breakpoints (i + 1)
    else scanFrom truthy values breakpoints i

/-- `getClosestValue(values, breakpoint, breakpoints, defaultValue?)` from
`media-query.utils.ts`:
1. if `breakpoint` is a key of `values`, return `values[breakpoint]`;
2. otherwise scan `breakpoints` downward from `breakpoints.indexOf(breakpoint)`
   for a truthy entry (`stopIndex = -1` skips the loop);
3. otherwise return `defaultValue`. -/
def getClosestValue {T : Type} (truthy : T → Bool) (values : List (String × T))
    (breakpoint : String) (breakpoints : List String)
    (defaultValue : Option T) : Option T :=
  match values.lookup breakpoint with
  | some v => some v
  | none =>
    match findIndex (· == breakpoint) breakpoints with
    | none => defaultValue
    | some stopIndex =>
      match scanFrom truthy values breakpoints stopIndex with
      | some v => some v
      | none => defaultValue

end Hug

namespace Hug

/-- One entry of a grid template: a line name and its
`[name] minmax(...)` column definition string. -/
structure ColumnSpec where
  name : String
  value : String
deriving DecidableEq, Repr

/-- `layoutMaxNoPadding` of `useHugGrid`. -/
def layoutMaxNoPadding (layoutMax gridGap : String) : String :=
  s!"calc({layoutMax} - {gridGap})"

/-- `fullColumn` of `useHugGrid`. -/
def fullColumn (layoutMax gridGap : String) (columnCount : Nat) : String :=
  let noPadding := layoutMaxNoPadding layoutMax gridGap
  s!"calc({noPadding} / {columnCount})"

/-- `contentColWidth` of `useHugGrid`. -/
def contentColWidth (layoutMax gridGap : String) (columnCount : Nat) : String :=
  let full := fullColumn layoutMax gridGap columnCount
  s!"calc({full} - {gridGap})"

/-- `contentColumns` of `useHugGrid`:
`Array(columnCount - 1).fill(0).map((_, i) => ...)`, producing
`content-2 .. content-<columnCount>`. -/
def contentColumns (columnCount : Nat) (width : String) : List ColumnSpec :=
  (List.range (columnCount - 1)).map fun i =>
    { name := s!"content-{i + 2}",
      value := s!"[content-{i + 2}] minmax(0, {width})" }

/-- `gridTemplateForMdq` of `useHugGrid`: the full template for the current
media query, parameterised by the content column width. -/
def gridTemplateForMdq (columnCount : Nat) (width : String) : List ColumnSpec :=
  [ { name := "full-start", value := "[full-start] minmax(0, 1fr)" },
    { name := "content-start",
      value := s!"[content-start] minmax(0, {width})" } ]
  ++ contentColumns columnCount width
  ++ [ { name := "content-end", value := "[content-end] minmax(0, 1fr)" },
       { name := "full-end", value := "[full-end]" } ]

/-- Data carried by the `Error` thrown when a user grid line is not found:
the offending line name, the current media query, its column count and the
full ordered list of valid line names (all interpolated into the thrown
message in the source). -/
structure LineNotFoundError where
  line : String
  currentMdq : String
  columnCount : Nat
  validNames : List String
deriving DecidableEq, Repr

/-- The user-span branch of `useHugGrid` (lines computing `gridColumn`,
`startIdx`, `endIdx`, the not-found throw, and the sliced
`gridTemplateColumns`). Returns the sliced template and the `gridColumn`
span expression, or the thrown error's data. -/
def sliceUserSpan (template : List ColumnSpec) (startName endName : String)
    (currentMdq : String) (columnCount : Nat) :
    Except LineNotFoundError (List ColumnSpec × String) :=
  let gridColumn := s!"{startName} / {endName}"
  let startIdx := findIndex (fun col => col.name == startName) template
  let endIdx := findIndex (fun col => col.name == endName) template
  match startIdx, endIdx with
  | some s, some e =>
    let lastColumn := template.getD e { name := "", value := "" }
    let lastName := lastColumn.name
    .ok ((template.drop s).take (e - s)
          ++ [{ name := lastName, value := s!"[{lastName}]" }],
         gridColumn)
  | _, _ =>
    let line := if startIdx.isNone then startName else endName
    .error { line := line, currentMdq := currentMdq,
             columnCount := columnCount,
             validNames := template.map (fun c => c.name) }

/-- The value returned by `useHugGrid`: the joined `gridTemplateColumns`
string and the optional `gridColumn` span expression. -/
structure HugGridResult where
  gridTemplateColumns : String
  gridColumn : Option String
deriving DecidableEq, Repr

/-- `useHugGrid`: build the full template for the current media query; if a
user grid is supplied, resolve its span for the current media query (with
`['full-start', 'full-end']` as the `getClosestValue` fallback) and slice
the template down to it. -/
def useHugGrid (userGrid : Option (List (String × List String)))
    (columnCount : Nat) (layoutMax gridGap currentMdq : String)
    (breakpoints : List String) : Except LineNotFoundError HugGridResult :=
  let width := contentColWidth layoutMax gridGap columnCount
  let template := gridTemplateForMdq columnCount width
  match userGrid with
  | none =>
    .ok { gridTemplateColumns :=
            String.intercalate "\n" (template.map (fun col => col.value)),
          gridColumn := none }
  | some ug =>
    let defaultSubGrid := ["full-start", "full-end"]
    -- `getClosestValue` with a default supplied always yields a value.
    let span := (getClosestValue arrTruthy ug currentMdq breakpoints
                  (some defaultSubGrid)).getD defaultSubGrid
    -- `const [start, end] = span`: destructuring a too-short array gives
    -- `undefined`, which stringifies as "undefined" downstream.
    let startName := span.getD 0 "undefined"
    let endName := span.getD 1 "undefined"
    match sliceUserSpan template startName endName currentMdq columnCount with
    | .ok (cols, gridColumn) =>
      .ok { gridTemplateColumns :=
              String.intercalate "\n" (cols.map (fun col => col.value)),
            gridColumn := some gridColumn }
    | .error e => .error e

/-- Errors thrown by the `Hug` component body. -/
inductive HugError where
  | cantGetBreakpoint
  | cantGetGapToken
  | cantGetColumns
  | lineNotFound (e : LineNotFoundError)
deriving DecidableEq, Repr

/-- The `Hug` component body after theme/config extraction:
`useBreakpointValue` is the external breakpoint signal (`currentMdqOpt`) and
`useToken` is the external token resolver (`tokenSize`). Each `if (!x) throw`
is a truthiness check on the resolved value. -/
def hugResolve (gaps : List (String × String)) (columns : List (String × Nat))
    (hugGrid : Option (List (String × List String)))
    (layoutMaxToken : String) (currentMdqOpt : Option String)
    (breakpoints : List String) (tokenSize : String → String) :
    Except HugError HugGridResult :=
  let layoutMax := tokenSize layoutMaxToken
  if !(jsTruthyOpt strTruthy currentMdqOpt) then .error .cantGetBreakpoint
  else
    let currentMdq := currentMdqOpt.getD ""
    let gapTokenOpt := getClosestValue strTruthy gaps currentMdq breakpoints none
    if !(jsTruthyOpt strTruthy gapTokenOpt) then .error .cantGetGapToken
    else
      let gridGap := tokenSize (gapTokenOpt.getD "")
      let columnCountOpt :=
        getClosestValue natTruthy columns currentMdq breakpoints none
      if !(jsTruthyOpt natTruthy columnCountOpt) then .error .cantGetColumns
      else
        match useHugGrid hugGrid (columnCountOpt.getD 0) layoutMax gridGap
                currentMdq breakpoints with
        | .ok r => .ok r
        | .error e => .error (.lineNotFound e)

/-- Modelled from the spec (§4.2, §8 Template length invariant): the line
names the spec prescribes for a template with `columnCount` columns:
`full-start, content-start, content-2, …, content-<columnCount>,
content-end, full-end`. -/
def specLineNames (columnCount : Nat) : List String :=
  ["full-start", "content-start"]
  ++ ((List.range (columnCount - 1)).map fun i => s!"content-{i + 2}")
  ++ ["content-end", "full-end"]

end Hug

namespace Hug

/-- `findIndex` correctness: a found index points at an element satisfying
the predicate. -/
theorem findIndex_some {α : Type} (p : α → Bool) (l : List α) (i : Nat)
    (h : findIndex p l = some i) : ∃ a, l[i]? = some a ∧ p a = true := by
  induction l generalizing i with
  | nil => simp [findIndex] at h
  | cons a l ih =>
    by_cases hp : p a
    · simp [findIndex, hp] at h
      exact ⟨a, by simp [← h], hp⟩
    · simp [findIndex, hp] at h
      obtain ⟨j, hj, rfl⟩ := h
      obtain ⟨b, hb, hpb⟩ := ih j hj
      exact ⟨b, by simpa using hb, hpb⟩

/-- A value produced by the downward scan is always truthy. -/
theorem scanFrom_truthy {T : Type} (truthy : T → Bool)
    (values : List (String × T)) (bps : List String) (i : Nat) (v : T)
    (h : scanFrom truthy values bps i = some v) : truthy v = true := by
  induction i with
  | zero =>
    by_cases ht : isTruthyAt truthy values bps 0
    · simp [scanFrom, ht] at h
      have := ht
      simp [isTruthyAt, h, jsTruthyOpt] at this
      exact this
    · simp [scanFrom, ht] at h
  | succ i ih =>
    by_cases ht : isTruthyAt truthy values bps (i + 1)
    · simp [scanFrom, ht] at h
      have := ht
      simp [isTruthyAt, h, jsTruthyOpt] at this
      exact this
    · simp [scanFrom, ht] at h
      exact ih h

/-- The downward scan finds a truthy entry at position `j ≤ i` when every
position strictly between `j` and `i` (inclusive) holds no truthy entry. -/
theorem scanFrom_found {T : Type} (truthy : T → Bool)
    (values : List (String × T)) (bps : List String) (i j : Nat) (v : T)
    (hj : j ≤ i) (hv : entryAt values bps j = some v) (ht : truthy v = true)
    (hafter : ∀ k, j < k → k ≤ i → isTruthyAt truthy values bps k = false) :
    scanFrom truthy values bps i = some v := by
  induction i with
  | zero =>
    have hj0 : j = 0 := Nat.le_zero.mp hj
    subst hj0
    have hcheck : isTruthyAt truthy values bps 0 = true := by
      simp [isTruthyAt, hv, jsTruthyOpt, ht]
    simp [scanFrom, hcheck, hv]
  | succ i ih =>
    rcases Nat.lt_or_ge j (i + 1) with hlt | hge
    · have hfail : isTruthyAt truthy values bps (i + 1) = false :=
        hafter (i + 1) hlt (Nat.le_refl _)
      have hrec := ih (Nat.lt_succ_iff.mp hlt)
        (fun k hk hk' => hafter k hk (Nat.le_succ_of_le hk'))
      simp [scanFrom, hfail, hrec]
    · have hj1 : j = i + 1 := Nat.le_antisymm hj hge
      subst hj1
      have hcheck : isTruthyAt truthy values bps (i + 1) = true := by
        simp [isTruthyAt, hv, jsTruthyOpt, ht]
      simp [scanFrom, hcheck, hv]

/-- The element `getD` reads at an index that `findIndex` produced is the
found element; in particular its name matches the searched name. -/
theorem getD_name_of_findIndex (template : List ColumnSpec) (nm : String)
    (e : Nat) (h : findIndex (fun c => c.name == nm) template = some e) :
    ((template[e]?).getD { name := "", value := "" }).name = nm := by
  obtain ⟨c, hc, hpc⟩ := findIndex_some _ template e h
  have hname : c.name = nm := by simpa using hpc
  simp [hc, hname]

end Hug

open Hug

/-- Claim C1: exact match precedence — whenever `values` has an explicit
entry for the current breakpoint, `getClosestValue` returns that entry
verbatim (even a falsy one), never the fallback or another breakpoint's
value. -/
theorem claim_C1 {T : Type} (truthy : T → Bool) (values : List (String × T))
    (breakpoint : String) (breakpoints : List String) (fallback : Option T)
    (v : T) (h : values.lookup breakpoint = some v) :
    getClosestValue truthy values breakpoint breakpoints fallback = some v := by
  simp [getClosestValue, h]

/-- Witness for C1 at a falsy explicit entry `0` with fallback `7`: the
entry itself is returned. -/
theorem claim_C1_witness :
    getClosestValue natTruthy [("md", 0)] "md" ["sm", "md"] (some 7)
      = some 0 :=
  claim_C1 natTruthy [("md", 0)] "md" ["sm", "md"] (some 7) 0 (by decide)

/-- Claim C2: mobile-first cascade — when the current breakpoint has no
explicit entry, the scan walks the order from the current position backward
and returns the first truthy entry found; in particular with
`order = [a,b,c,d]` and `values = \x7ba: 1, c: 3\x7d`, resolving at `b`
gives `1` and resolving at `d` gives `3`. -/
theorem claim_C2 :
    (∀ (T : Type) (truthy : T → Bool) (values : List (String × T))
       (breakpoint : String) (breakpoints : List String) (fallback : Option T)
       (i j : Nat) (v : T),
       values.lookup breakpoint = none →
       findIndex (· == breakpoint) breakpoints = some i →
       j ≤ i → entryAt values breakpoints j = some v → truthy v = true →
       (∀ k, j < k → k ≤ i → isTruthyAt truthy values breakpoints k = false) →
       getClosestValue truthy values breakpoint breakpoints fallback = some v)
    ∧ getClosestValue natTruthy [("a", 1), ("c", 3)] "b" ["a", "b", "c", "d"]
        none = some 1
    ∧ getClosestValue natTruthy [("a", 1), ("c", 3)] "d" ["a", "b", "c", "d"]
        none = some 3 := by
  refine ⟨?_, by decide, by decide⟩
  intro T truthy values breakpoint breakpoints fallback i j v hnone hidx hj hv
    ht hafter
  have hscan := scanFrom_found truthy values breakpoints i j v hj hv ht hafter
  simp [getClosestValue, hnone, hidx, hscan]

/-- Witness for C2's general scan statement, instantiated at
`values = \x7ba: 1, c: 3\x7d`, current `b`, order `[a,b,c,d]`: the scan
starts at index 1 and lands on the truthy entry at index 0. -/
theorem claim_C2_witness :
    getClosestValue natTruthy [("a", 1), ("c", 3)] "b" ["a", "b", "c", "d"]
      none = some 1 := by
  refine claim_C2.1 Nat natTruthy [("a", 1), ("c", 3)] "b" ["a", "b", "c", "d"]
    none 1 0 1 (by decide) (by decide) (by decide) (by decide) (by decide) ?_
  intro k hk hk'
  have hk1 : k = 1 := Nat.le_antisymm hk' hk
  subst hk1
  decide

/-- Claim C3: truthiness asymmetry of the fallback scan — when the current
breakpoint has no explicit entry, the result is either the fallback or a
truthy value, so a falsy entry at a smaller breakpoint is never the result
of the scan (it is skipped); concretely, `\x7ba: 1, b: 0\x7d` at current
`c` skips the falsy `0` at `b` and returns `1`, whereas the same falsy `0`
is returned when it sits at the current breakpoint itself. -/
theorem claim_C3 :
    (∀ (T : Type) (truthy : T → Bool) (values : List (String × T))
       (breakpoint : String) (breakpoints : List String) (fallback : Option T),
       values.lookup breakpoint = none →
       getClosestValue truthy values breakpoint breakpoints fallback = fallback
       ∨ jsTruthyOpt truthy
           (getClosestValue truthy values breakpoint breakpoints fallback)
           = true)
    ∧ getClosestValue natTruthy [("a", 1), ("b", 0)] "c" ["a", "b", "c"] none
        = some 1
    ∧ getClosestValue natTruthy [("b", 0)] "b" ["a", "b", "c"] (some 9)
        = some 0 := by
  refine ⟨?_, by decide, by decide⟩
  intro T truthy values breakpoint breakpoints fallback hnone
  cases hidx : findIndex (· == breakpoint) breakpoints with
  | none => exact Or.inl (by simp [getClosestValue, hnone, hidx])
  | some stopIndex =>
    cases hscan : scanFrom truthy values breakpoints stopIndex with
    | none => exact Or.inl (by simp [getClosestValue, hnone, hidx, hscan])
    | some v =>
      refine Or.inr ?_
      have ht := scanFrom_truthy truthy values breakpoints stopIndex v hscan
      simp [getClosestValue, hnone, hidx, hscan, jsTruthyOpt, ht]

/-- Witness for C3's general statement at `values = \x7ba: 1, b: 0\x7d`,
current `c` (no explicit entry), fallback `9`: the result is the fallback
or truthy — and indeed the scan returns the truthy `1`, not the falsy `0`. -/
theorem claim_C3_witness :
    getClosestValue natTruthy [("a", 1), ("b", 0)] "c" ["a", "b", "c"] (some 9)
      = some 9
    ∨ jsTruthyOpt natTruthy
        (getClosestValue natTruthy [("a", 1), ("b", 0)] "c" ["a", "b", "c"]
          (some 9)) = true :=
  claim_C3.1 Nat natTruthy [("a", 1), ("b", 0)] "c" ["a", "b", "c"] (some 9)
    (by decide)

/-- Claim C7 counterexample: with `values = \x7bx: 5\x7d`, current `x` and
an empty order, the current breakpoint does not occur in the order, yet
`getClosestValue` returns the explicit entry `5`, not the provided
fallback `7` — refuting the claim as stated. -/
theorem claim_C7_counterexample :
    getClosestValue natTruthy [("x", 5)] "x" ([] : List String) (some 7)
      ≠ some 7
    ∧ getClosestValue natTruthy [("x", 5)] "x" ([] : List String) (some 7)
      = some 5 := by
  exact ⟨by decide, by decide⟩

/-- Claim C7 (amended): for every mapping `values` with no explicit entry
at the current breakpoint, if the current breakpoint does not occur in the
order then `getClosestValue` returns the fallback if provided, else
Absent. -/
theorem claim_C7 {T : Type} (truthy : T → Bool) (values : List (String × T))
    (breakpoint : String) (breakpoints : List String) (fallback : Option T)
    (hnone : values.lookup breakpoint = none)
    (hidx : findIndex (· == breakpoint) breakpoints = none) :
    getClosestValue truthy values breakpoint breakpoints fallback
      = fallback := by
  simp [getClosestValue, hnone, hidx]

/-- Witness for the amended C7: `y` is neither a key of `values` nor in the
order, so the fallback `7` is returned. -/
theorem claim_C7_witness :
    getClosestValue natTruthy [("x", 5)] "y" ["a"] (some 7) = some 7 :=
  claim_C7 natTruthy [("x", 5)] "y" ["a"] (some 7) (by decide) (by decide)

/-- Claim C4: template length and name order — for every `columnCount ≥ 1`
the built template has exactly `columnCount + 3` entries whose names are,
in order, `full-start, content-start, content-2, …, content-<columnCount>,
content-end, full-end`. -/
theorem claim_C4 (columnCount : Nat) (h : 1 ≤ columnCount) (w : String) :
    (gridTemplateForMdq columnCount w).length = columnCount + 3
    ∧ (gridTemplateForMdq columnCount w).map (fun c => c.name)
        = specLineNames columnCount := by
  constructor
  · simp [gridTemplateForMdq, contentColumns]
    omega
  · simp [gridTemplateForMdq, contentColumns, specLineNames, List.map_map]

/-- Witness for C4 at `columnCount = 4` (and, degenerately, the claim also
holds at `columnCount = 1` where no numbered content line exists). -/
theorem claim_C4_witness :
    1 ≤ 4
    ∧ ((gridTemplateForMdq 4 "w").length = 4 + 3
       ∧ (gridTemplateForMdq 4 "w").map (fun c => c.name)
           = specLineNames 4) :=
  ⟨by decide, claim_C4 4 (by decide) "w"⟩

/-- Claim C5: slice sub-sequence property — when both span names occur in
the template with the start strictly before the end, slicing returns the
contiguous sub-sequence from the start index (inclusive) to the end index
(exclusive), followed by one unsized entry repeating the end line's name,
together with the span expression `"<start> / <end>"`. -/
theorem claim_C5 (template : List ColumnSpec) (startName endName mdq : String)
    (cc s e : Nat)
    (hs : findIndex (fun c => c.name == startName) template = some s)
    (he : findIndex (fun c => c.name == endName) template = some e)
    (_hlt : s < e) :
    sliceUserSpan template startName endName mdq cc =
      .ok ((template.drop s).take (e - s)
            ++ [{ name := endName, value := s!"[{endName}]" }],
           s!"{startName} / {endName}") := by
  have hname := getD_name_of_findIndex template endName e he
  simp [sliceUserSpan, hs, he, hname]

/-- Witness for C5: slicing the 4-column template from `content-start`
(index 1) to `content-3` (index 3) keeps entries 1 and 2 and appends the
unsized `content-3` line. -/
theorem claim_C5_witness :
    sliceUserSpan (gridTemplateForMdq 4 "w") "content-start" "content-3"
      "md" 4 =
      .ok ([{ name := "content-start",
              value := "[content-start] minmax(0, w)" },
            { name := "content-2",
              value := "[content-2] minmax(0, w)" },
            { name := "content-3", value := "[content-3]" }],
           "content-start / content-3") := by
  have h := claim_C5 (gridTemplateForMdq 4 "w") "content-start" "content-3"
    "md" 4 1 3 (by decide) (by decide) (by decide)
  rw [h]
  rfl

/-- Claim C10: a reversed span does not error — when both names occur but
the start sits at or after the end, the inclusive-exclusive sub-sequence is
empty and slicing returns just the single unsized end entry, along with the
span expression `"<start> / <end>"`. -/
theorem claim_C10 (template : List ColumnSpec) (startName endName mdq : String)
    (cc s e : Nat)
    (hs : findIndex (fun c => c.name == startName) template = some s)
    (he : findIndex (fun c => c.name == endName) template = some e)
    (hle : e ≤ s) :
    sliceUserSpan template startName endName mdq cc =
      .ok ([{ name := endName, value := s!"[{endName}]" }],
           s!"{startName} / {endName}") := by
  have hname := getD_name_of_findIndex template endName e he
  have hz : e - s = 0 := Nat.sub_eq_zero_of_le hle
  simp [sliceUserSpan, hs, he, hname, hz]

/-- Witness for C10: the reversed span `['content-end', 'content-start']`
on the 4-column template yields only the unsized `content-start` line and
the expression `"content-end / content-start"`. -/
theorem claim_C10_witness :
    sliceUserSpan (gridTemplateForMdq 4 "w") "content-end" "content-start"
      "md" 4 =
      .ok ([{ name := "content-start", value := "[content-start]" }],
           "content-end / content-start") := by
  have h := claim_C10 (gridTemplateForMdq 4 "w") "content-end" "content-start"
    "md" 4 5 1 (by decide) (by decide) (by decide)
  rw [h]
  rfl

/-- Claim C6: unknown line name fails — when the start or end name is
absent from the current breakpoint's full template, slicing produces the
thrown error (no template/span result), carrying a missing line name (the
start if it is the absent one, else the end) together with the current
media query, its column count and the full ordered list of valid line
names. -/
theorem claim_C6 (cc : Nat) (w startName endName mdq : String)
    (h : findIndex (fun c => c.name == startName) (gridTemplateForMdq cc w)
           = none
       ∨ findIndex (fun c => c.name == endName) (gridTemplateForMdq cc w)
           = none) :
    sliceUserSpan (gridTemplateForMdq cc w) startName endName mdq cc =
      .error
        { line :=
            if (findIndex (fun c => c.name == startName)
                  (gridTemplateForMdq cc w)).isNone
            then startName else endName,
          currentMdq := mdq, columnCount := cc,
          validNames := (gridTemplateForMdq cc w).map (fun c => c.name) }
    ∧ findIndex
        (fun c => c.name ==
          (if (findIndex (fun c => c.name == startName)
                 (gridTemplateForMdq cc w)).isNone
           then startName else endName))
        (gridTemplateForMdq cc w) = none := by
  cases hst : findIndex (fun c => c.name == startName)
      (gridTemplateForMdq cc w) with
  | none =>
    refine ⟨?_, ?_⟩
    · cases hen : findIndex (fun c => c.name == endName)
          (gridTemplateForMdq cc w) with
      | none => simp [sliceUserSpan, hst, hen]
      | some e => simp [sliceUserSpan, hst, hen]
    · simp [hst]
  | some s =>
    have hen : findIndex (fun c => c.name == endName) (gridTemplateForMdq cc w)
        = none := by
      rcases h with h | h
      · rw [hst] at h
        cases h
      · exact h
    refine ⟨?_, ?_⟩
    · simp [sliceUserSpan, hst, hen]
    · simp [hst, hen]

/-- Witness for C6: the span `['content-8', 'content-3']` on the 4-column
template fails, reporting `content-8` as the missing line together with the
valid names of the `md` template. -/
theorem claim_C6_witness :
    sliceUserSpan (gridTemplateForMdq 4 "w") "content-8" "content-3" "md" 4 =
      .error
        { line := "content-8", currentMdq := "md", columnCount := 4,
          validNames := (gridTemplateForMdq 4 "w").map (fun c => c.name) }
    ∧ findIndex (fun c => c.name == "content-8") (gridTemplateForMdq 4 "w")
        = none := by
  have h := claim_C6 4 "w" "content-8" "content-3" "md" (Or.inl (by decide))
  have hst : findIndex (fun c => c.name == "content-8")
      (gridTemplateForMdq 4 "w") = none := by decide
  rw [hst] at h
  simpa using h

/-- Claim C8: required structural values escalate — when closest-value
resolution of the gap token yields Absent, `hugResolve` fails with the
"can't get current gap token" error; when the gap token resolves to a
truthy value but the column count resolution yields Absent, it fails with
the "can't get current number of columns" error. No default is substituted
for either value. -/
theorem claim_C8 (gaps : List (String × String)) (columns : List (String × Nat))
    (hugGrid : Option (List (String × List String)))
    (layoutMaxToken currentMdq : String) (breakpoints : List String)
    (tokenSize : String → String) (hmdq : currentMdq ≠ "") :
    (getClosestValue strTruthy gaps currentMdq breakpoints none = none →
       hugResolve gaps columns hugGrid layoutMaxToken (some currentMdq)
         breakpoints tokenSize = .error .cantGetGapToken)
    ∧ (jsTruthyOpt strTruthy
         (getClosestValue strTruthy gaps currentMdq breakpoints none) = true →
       getClosestValue natTruthy columns currentMdq breakpoints none = none →
       hugResolve gaps columns hugGrid layoutMaxToken (some currentMdq)
         breakpoints tokenSize = .error .cantGetColumns) := by
  have hbp : jsTruthyOpt strTruthy (some currentMdq) = true := by
    simp [jsTruthyOpt, strTruthy, hmdq]
  constructor
  · intro hgap
    have h2 : jsTruthyOpt strTruthy
        (getClosestValue strTruthy gaps currentMdq breakpoints none) = false := by
      rw [hgap]
      rfl
    simp [hugResolve, hbp, h2]
  · intro hgap hcols
    have h3 : jsTruthyOpt natTruthy
        (getClosestValue natTruthy columns currentMdq breakpoints none)
          = false := by
      rw [hcols]
      rfl
    simp [hugResolve, hbp, hgap, h3]

/-- Witness for C8: with no gap entry at all the gap-token error is thrown;
with a truthy gap but no column entry the column-count error is thrown. -/
theorem claim_C8_witness :
    hugResolve [] [("md", 8)] none "lm" (some "md") ["md"] id
      = .error .cantGetGapToken
    ∧ hugResolve [("md", "g")] [] none "lm" (some "md") ["md"] id
      = .error .cantGetColumns :=
  ⟨(claim_C8 [] [("md", 8)] none "lm" "md" ["md"] id (by decide)).1
     (by decide),
   (claim_C8 [("md", "g")] [] none "lm" "md" ["md"] id (by decide)).2
     (by decide) (by decide)⟩

/-- Claim C9 (implicit): falsy resolved structural values are also
rejected — the orchestration tests truthiness of the resolved result, so a
gap token that resolves to the empty string, or a column count that
resolves to `0` (even as an exact match), triggers the same errors as the
Absent case, although the closest-value lookup did succeed. -/
theorem claim_C9 (gaps : List (String × String)) (columns : List (String × Nat))
    (hugGrid : Option (List (String × List String)))
    (layoutMaxToken currentMdq : String) (breakpoints : List String)
    (tokenSize : String → String) (hmdq : currentMdq ≠ "") :
    (getClosestValue strTruthy gaps currentMdq breakpoints none = some "" →
       hugResolve gaps columns hugGrid layoutMaxToken (some currentMdq)
         breakpoints tokenSize = .error .cantGetGapToken)
    ∧ (jsTruthyOpt strTruthy
         (getClosestValue strTruthy gaps currentMdq breakpoints none) = true →
       getClosestValue natTruthy columns currentMdq breakpoints none = some 0 →
       hugResolve gaps columns hugGrid layoutMaxToken (some currentMdq)
         breakpoints tokenSize = .error .cantGetColumns) := by
  have hbp : jsTruthyOpt strTruthy (some currentMdq) = true := by
    simp [jsTruthyOpt, strTruthy, hmdq]
  constructor
  · intro hgap
    have h2 : jsTruthyOpt strTruthy
        (getClosestValue strTruthy gaps currentMdq breakpoints none) = false := by
      rw [hgap]
      rfl
    simp [hugResolve, hbp, h2]
  · intro hgap hcols
    have h3 : jsTruthyOpt natTruthy
        (getClosestValue natTruthy columns currentMdq breakpoints none)
          = false := by
      rw [hcols]
      rfl
    simp [hugResolve, hbp, hgap, h3]

/-- Witness for C9: an explicit empty gap token at the current breakpoint
(an exact falsy match) and an explicit zero column count both throw. -/
theorem claim_C9_witness :
    hugResolve [("md", "")] [("md", 8)] none "lm" (some "md") ["md"] id
      = .error .cantGetGapToken
    ∧ hugResolve [("md", "g")] [("md", 0)] none "lm" (some "md") ["md"] id
      = .error .cantGetColumns :=
  ⟨(claim_C9 [("md", "")] [("md", 8)] none "lm" "md" ["md"] id (by decide)).1
     (by decide),
   (claim_C9 [("md", "g")] [("md", 0)] none "lm" "md" ["md"] id (by decide)).2
     (by decide) (by decide)⟩
